import Mathlib

/-!
Verification of the pywws bulk Met Office generator and the CWOP /
OpenWeatherMap upload services.

Shallow embedding of:
  src/scripts/bulk_metoffice_generator.py  (GenerateBulk, rain_day,
    max_temp24, safe_format)
  src/src/pywws/service/cwop.py            (ToService template, interval,
    upload_data)
  src/src/pywws/service/openweathermap.py  (ToService.upload_data, register)

Timestamps are modelled as whole seconds on an integer timeline whose zero is
datetime.min; numeric reading fields are exact rationals. The ReadingStore
(pywws DataStore) and the template / throttling machinery of pywws.service
live outside src/ and are modelled from the specification, as marked in the
doc comments below.
-/

namespace Pywws

/-- One calibrated weather reading: UTC timestamp `idx` in seconds, outdoor
temperature and the (cumulative, resettable) rain counter. Only the fields
the verified functions touch are modelled. -/
structure Reading where
  idx : Int
  temp_out : ℚ
  rain : ℚ
  deriving Repr, DecidableEq

/-- timedelta(hours=1) in seconds. -/
def HOUR : Int := 3600

/-- timedelta(hours=24) in seconds. -/
def DAY : Int := 86400

/-- REPORTS_MAXIMUM_FREQUENCY = timedelta(minutes=3), in seconds. -/
def REPORTS_MAXIMUM_FREQUENCY : Int := 180

/-- datetime.min, the initial value of `prev_idx` in GenerateBulk: the origin
of the modelled timeline. Every valid datetime is at or after this instant. -/
def datetimeMin : Int := 0

/-- Distance between two timestamps, as used by the nearest lookup. -/
def tdist (a b : Int) : Nat := (a - b).natAbs

/-- Modelled from the spec: the ReadingStore nearest-timestamp lookup of
pywws DataStore (repository code not under src/). Scans the stored readings
keeping the one whose timestamp is nearest to `t`; on a tie the
earlier-scanned (hence earlier, for an ascending store) reading is kept. -/
def nearestAux (t : Int) (best : Reading) : List Reading → Reading
  | [] => best
  | r :: rs => nearestAux t (if tdist r.idx t < tdist best.idx t then r else best) rs

/-- Modelled from the spec: `calib_data[calib_data.nearest(t)]`, the stored
reading nearest to `t` (none when the store is empty). -/
def nearest (store : List Reading) (t : Int) : Option Reading :=
  match store with
  | [] => none
  | r :: rs => some (nearestAux t r rs)

/-- Modelled from the spec: the ReadingStore slice `store[a:b]`, the stored
readings with `a ≤ idx < b` in ascending order (half-open range iteration). -/
def srange (store : List Reading) (a b : Int) : List Reading :=
  store.filter (fun r => a ≤ r.idx && r.idx < b)

/-- max_temp24(calib_data, report) from bulk_metoffice_generator.py lines
106-111: locate the reading nearest to `idx - 24h`, seed the maximum with the
report temperature, then fold max over the half-open slice from that reading
up to (excluding) the report. -/
def max_temp24 (store : List Reading) (report : Reading) : Option ℚ :=
  match nearest store (report.idx - DAY) with
  | none => none
  | some start =>
    some ((srange store start.idx report.idx).foldl
      (fun m r => max m r.temp_out) report.temp_out)

/-- The notion of true 24-hour window maximum used by the claim, written from
the words of the spec for comparison with `max_temp24`: the maximum of
temp_out over the stored readings in the closed window from `idx - 24h` to
`idx`, seeded with the value at the report itself. -/
def windowTrueMax (store : List Reading) (report : Reading) : ℚ :=
  ((store.filter (fun r => report.idx - DAY ≤ r.idx && r.idx ≤ report.idx)).map
    (fun r => r.temp_out)).foldl max report.temp_out

/-- The first while loop of rain_day (line 95): step midnight down one day at
a time while the report is before it. -/
def midnightDown (idx : Int) (m : Int) : Int :=
  if idx < m then midnightDown idx (m - DAY) else m
  termination_by (m - idx).toNat
  decreasing_by simp [DAY] at *; omega

/-- The second while loop of rain_day (line 98): step midnight up one day at a
time while the report is a full day or more after it. -/
def midnightUp (idx : Int) (m : Int) : Int :=
  if idx ≥ m + DAY then midnightUp idx (m + DAY) else m
  termination_by (idx - m).toNat
  decreasing_by simp [DAY] at *; omega

/-- Failure modes of one rain_day call. -/
inductive RainDayErr
  /-- rain_midnight is read without ever having been assigned (neither while
  loop ran): Python raises UnboundLocalError. -/
  | unboundLocal
  /-- the store is empty, so the nearest lookup for the reference fails. -/
  | emptyStore
  deriving Repr, DecidableEq

/-- rain_day(calib_data, report) from bulk_metoffice_generator.py lines
91-103. `nowMidnight` stands for the most recent local midnight of
datetime.utcnow(), converted back to naive UTC, recomputed afresh on every
call. rain_midnight is a variable local to the function, assigned (to None)
only inside the two while loop bodies; the reference reading is therefore
fetched whenever at least one loop iteration ran, and reading rain_midnight
raises UnboundLocalError when neither loop ran. -/
def rain_day (store : List Reading) (nowMidnight : Int) (report : Reading) :
    Except RainDayErr ℚ :=
  let m1 := midnightDown report.idx nowMidnight
  let m2 := midnightUp report.idx m1
  if report.idx < nowMidnight ∨ report.idx ≥ m1 + DAY then
    match nearest store m2 with
    | none => .error .emptyStore
    | some ref => .ok (max 0 (report.rain - ref.rain))
  else .error .unboundLocal

/-- Number of nearest-timestamp store fetches of the midnight reference that
one (non-crashing) rain_day call performs: line 102 runs whenever
rain_midnight was assigned None, i.e. whenever either while loop iterated. -/
def rain_day_fetches (nowMidnight : Int) (report : Reading) : Nat :=
  if report.idx < nowMidnight ∨
      report.idx ≥ midnightDown report.idx nowMidnight + DAY then 1 else 0

/-- The Rainfall Rate computation of GenerateBulk (line 76):
max(0.0, rain at the report minus rain at the reading nearest to one hour
earlier). -/
def rainfall_rate (store : List Reading) (report : Reading) : Option ℚ :=
  (nearest store (report.idx - HOUR)).map (fun ref => max 0 (report.rain - ref.rain))

/-- The deduplication loop of GenerateBulk (lines 65-86): a report whose gap
from `prev` is below REPORTS_MAXIMUM_FREQUENCY is skipped with continue (its
values are discarded); otherwise it is written and prev_idx advances to it. -/
def dedupeFrom (prev : Int) : List Reading → List Reading
  | [] => []
  | r :: rs =>
    if r.idx - prev < REPORTS_MAXIMUM_FREQUENCY then dedupeFrom prev rs
    else r :: dedupeFrom r.idx rs

/-- The readings GenerateBulk writes to CSV: the whole store (start =
datetime.min, stop = datetime.max) deduplicated starting from
prev_idx = datetime.min. -/
def generateBulkReports (store : List Reading) : List Reading :=
  dedupeFrom datetimeMin store

/-- A Python value as passed to safe_format: None, a number, or a string. -/
inductive PyVal
  | none
  | num (q : ℚ)
  | str (s : String)
  deriving Repr, DecidableEq

/-- Python truthiness: None, numeric zero and the empty string are falsy. -/
def pyTruthy : PyVal → Bool
  | .none => false
  | .num q => q ≠ 0
  | .str s => s ≠ ""

/-- safe_format(format, value) from bulk_metoffice_generator.py lines 114-115:
`format % value if value else None`. The percent-rendering is abstracted as a
function argument. -/
def safe_format (render : PyVal → String) (value : PyVal) : Option String :=
  if pyTruthy value then some (render value) else none

/-- A field of the CWOP template: field key, the width N of its %0Nd output
format, and the no-value alternative string of the template line. -/
structure FieldSpec where
  name : String
  width : Nat
  fallback : String
  deriving Repr, DecidableEq

/-- The fixed-width numeric fields of the CWOP template (cwop.py lines
88-115): the base template lines, the illuminance line added for station type
3080, and the altitude line added when an altitude is configured. The
no-value alternative of the altitude line in the source is the empty
string. -/
def cwopFieldSpecs : List FieldSpec :=
  [ ⟨ "wind_dir", 3, "..." ⟩, ⟨ "wind_ave", 3, "..." ⟩,
    ⟨ "wind_gust", 3, "..." ⟩, ⟨ "temp_out", 3, "..." ⟩,
    ⟨ "hum_out", 2, ".." ⟩, ⟨ "rel_pressure", 5, "....." ⟩,
    ⟨ "rain_hour", 3, "..." ⟩, ⟨ "rain_24hr", 3, "..." ⟩,
    ⟨ "rain_day", 3, "..." ⟩, ⟨ "illuminance", 3, "..." ⟩,
    ⟨ "altitude", 6, "" ⟩ ]

/-- Decimal digit characters of n, most significant first (empty for 0). -/
def decDigits (n : Nat) : List Char :=
  ((Nat.digits 10 n).map (fun d => Char.ofNat (d + 48))).reverse

/-- Modelled from the spec: FieldTemplate rendering of one field (the
template machinery lives in pywws.template / pywws.service, which are not
under src/): a present value renders with the %0Nd format, zero-padded to the
declared width; a missing value renders the no-value alternative string. -/
def renderField (spec : FieldSpec) (value : Option Nat) : String :=
  match value with
  | none => spec.fallback
  | some v => String.mk (List.replicate (spec.width - (decDigits v).length) '0' ++ decDigits v)

/-- Modelled from the spec: template resolution maps every applicable field
spec to its rendered string, values coming from a lookup by field key; no key
is ever omitted. -/
def resolveTemplate (specs : List FieldSpec) (lookup : String → Option Nat) :
    List (String × String) :=
  specs.map (fun s => (s.name, renderField s (lookup s.name)))

/-- The prepared data handed to ToService.upload_data of cwop.py: the
formatted string fields produced by the template plus the fixed data.
Altitude is optional (its presence is tested with `in` by the source); the
illuminance fields are only meaningful for station type 3080. -/
structure PreparedData where
  designator : String
  passcode : String
  version : String
  idx : String
  lat_loran : String
  lon_loran : String
  wind_dir : String
  wind_ave : String
  wind_gust : String
  temp_out : String
  hum_out : String
  rel_pressure : String
  rain_hour : String
  rain_24hr : String
  rain_day : String
  illuminance_t : String
  illuminance : String
  altitude : Option String
  deriving Repr, DecidableEq

/-- Value of a decimal digit character, none for any other character. -/
def decDigitVal? (c : Char) : Option Nat :=
  if '0' ≤ c ∧ c ≤ '9' then some (c.toNat - 48) else none

/-- Accumulate decimal digits left to right; none at the first non-digit. -/
def parseNatAux : List Char → Nat → Option Nat
  | [], acc => some acc
  | c :: cs, acc =>
    match decDigitVal? c with
    | none => none
    | some d => parseNatAux cs (acc * 10 + d)

/-- A non-empty all-digit character list as a number, none otherwise. -/
def parseNat? : List Char → Option Nat
  | [] => none
  | l => parseNatAux l 0

/-- Python int(s) applied to a string: optional surrounding spaces, an
optional sign, then at least one decimal digit; anything else raises
ValueError (modelled as none). -/
def pyInt? (s : String) : Option Int :=
  let l := ((s.data.dropWhile (fun c => c = ' ')).reverse.dropWhile
    (fun c => c = ' ')).reverse
  match l with
  | '-' :: rest => (parseNat? rest).map (fun n => -(n : Int))
  | '+' :: rest => (parseNat? rest).map (fun n => (n : Int))
  | rest => (parseNat? rest).map (fun n => (n : Int))

/-- The login line built by ToService.upload_data of cwop.py (lines
129-130). -/
def cwop_login (d : PreparedData) : String :=
  "user " ++ d.designator ++ " pass " ++ d.passcode ++ " vers pywws " ++
    d.version ++ "\n"

/-- The status packet built by ToService.upload_data of cwop.py (lines
133-145), before ASCII encoding and the trailing newline. The none result
models the uncaught ValueError raised by int(prepared_data[rain_hour]) when
the station type is 3080 and rain_hour is not an integer literal (for
example the missing-value sentinel). -/
def cwop_packet (wsType : String) (d : PreparedData) : Option String :=
  let head := d.designator ++ ">APRS,TCPIP*:@" ++ d.idx ++ "z" ++
    d.lat_loran ++ "/" ++ d.lon_loran ++ "_" ++ d.wind_dir ++ "/" ++
    d.wind_ave ++ "g" ++ d.wind_gust ++ "t" ++ d.temp_out
  let tail := "p" ++ d.rain_24hr ++ "P" ++ d.rain_day ++ "h" ++ d.hum_out ++
    "b" ++ d.rel_pressure ++ ".pywws-" ++ d.version ++
    (match d.altitude with
     | none => ""
     | some a => " /A=" ++ a)
  if wsType = "3080" then
    match pyInt? d.rain_hour with
    | none => none
    | some n =>
      if n = 0 then some (head ++ d.illuminance_t ++ d.illuminance ++ tail)
      else some (head ++ "r" ++ d.rain_hour ++ tail)
  else some (head ++ "r" ++ d.rain_hour ++ tail)

/-- The status line as the claim specifies it, written from the words of the
claim for comparison with cwop_packet: the rain_hour section is always
present and the altitude suffix appears exactly when altitude is in the
prepared data. -/
def claimPacket (d : PreparedData) : String :=
  d.designator ++ ">APRS,TCPIP*:@" ++ d.idx ++ "z" ++ d.lat_loran ++ "/" ++
    d.lon_loran ++ "_" ++ d.wind_dir ++ "/" ++ d.wind_ave ++ "g" ++
    d.wind_gust ++ "t" ++ d.temp_out ++ "r" ++ d.rain_hour ++ "p" ++
    d.rain_24hr ++ "P" ++ d.rain_day ++ "h" ++ d.hum_out ++ "b" ++
    d.rel_pressure ++ ".pywws-" ++ d.version ++
    (match d.altitude with
     | none => ""
     | some a => " /A=" ++ a)

/-- Outcome of the socket operations inside the try block of upload_data
(login send, acknowledgement receive, packet send, shutdown): either all
succeed, or one of them raises an exception whose repr is msg. -/
inductive SendOutcome
  | ok
  | exn (msg : String)
  deriving Repr, DecidableEq

/-- ToService.upload_data of cwop.py (lines 128-156): builds the login line
and the packet (outside the exception guard: none when packet construction
raises), then transmits; an exception during transmission yields
(False, repr(ex)), otherwise (True, OK). -/
def cwop_upload_data (wsType : String) (transmit : SendOutcome)
    (d : PreparedData) : Option (Bool × String) :=
  match cwop_packet wsType d with
  | none => none
  | some _ =>
    match transmit with
    | .exn msg => some (false, msg)
    | .ok => some (true, "OK")

/-- ToService.upload_data of openweathermap.py (lines 130-139). The argument
is the outcome of session.post: a raised exception with message text, or an
HTTP response with status code and body text. -/
def owm_upload_data (resp : Except String (Int × String)) : Bool × String :=
  match resp with
  | .error ex => (false, ex)
  | .ok (status, text) =>
    if status ≠ 204 then
      (false, "http status: " ++ toString status ++ " " ++ text)
    else (true, "OK")

/-- HTTP request method used by the register model. -/
inductive HttpMethod
  | post
  | put
  deriving Repr, DecidableEq

/-- An HTTP request issued by the register model. -/
structure HttpRequest where
  method : HttpMethod
  url : String
  deriving Repr, DecidableEq

/-- The stations endpoint of openweathermap.py line 142. -/
def owm_stations_url : String :=
  "http://api.openweathermap.org/data/3.0/stations"

/-- Python truthiness of context.params.get(service, station id): an absent
entry (None) and the empty string are falsy. -/
def pyTruthyStr : Option String → Bool
  | none => false
  | some s => s ≠ ""

/-- ToService.register of openweathermap.py (lines 141-174): the requests it
issues and the station id it writes back to the configuration. `stationId`
is the configured station id (none when absent); `resp` is the outcome of
the POST creation request (the ok value being the ID field of the response
body). A truthy station id takes the update branch: one PUT to the station
URL and no configuration write, whatever the response; otherwise one POST,
and on success the returned id is persisted. -/
def owm_register (stationId : Option String) (resp : Except String String) :
    List HttpRequest × Option String :=
  if pyTruthyStr stationId then
    ([⟨ .put, owm_stations_url ++ "/" ++ stationId.getD "" ⟩], none)
  else
    match resp with
    | .error _ => ([⟨ .post, owm_stations_url ⟩], none)
    | .ok newId => ([⟨ .post, owm_stations_url ⟩], some newId)

/-- ToService.interval of cwop.py line 85: timedelta(seconds=290), in
seconds. -/
def cwop_interval : Int := 290

/-- Modelled from the spec: the upload throttle of pywws.service (repository
code not under src/): an event starts an attempt only when at least
`interval` has elapsed since the start of the previous attempt, regardless of
its outcome. -/
def throttleAux (interval last : Int) : List Int → List Int
  | [] => []
  | t :: ts =>
    if t - last ≥ interval then t :: throttleAux interval t ts
    else throttleAux interval last ts

/-- Modelled from the spec: the attempt start times produced by a sequence of
event times; the first event always starts an attempt. -/
def attempts (interval : Int) : List Int → List Int
  | [] => []
  | t :: ts => t :: throttleAux interval t ts

/-- Sample prepared data used by concrete upload theorems: a 3080-style
record whose rain_hour rendered to the integer-zero string 000. -/
def d0 : PreparedData :=
  ⟨ "EW9999", "-1", "18.4.1", "012034", "5130.06N", "00008.52E", "045",
    "010", "015", "072", "55", "10132", "000", "005", "012", "L", "123",
    none ⟩

/-- Sample prepared data whose rain_hour is the missing-value sentinel. -/
def dSentinel : PreparedData := { d0 with rain_hour := "..." }

/-! Helper lemmas. -/

theorem nearestAux_min (t : Int) (l : List Reading) :
    ∀ best : Reading,
      tdist (nearestAux t best l).idx t ≤ tdist best.idx t ∧
      ∀ r ∈ l, tdist (nearestAux t best l).idx t ≤ tdist r.idx t := by
  induction l with
  | nil =>
    intro best
    refine ⟨le_refl _, ?_⟩
    intro r hr
    cases hr
  | cons x xs ih =>
    intro best
    simp only [nearestAux]
    by_cases h : tdist x.idx t < tdist best.idx t
    · rw [if_pos h]
      obtain ⟨h1, h2⟩ := ih x
      refine ⟨le_trans h1 (le_of_lt h), ?_⟩
      intro r hr
      rcases List.mem_cons.mp hr with rfl | hr
      · exact h1
      · exact h2 r hr
    · rw [if_neg h]
      obtain ⟨h1, h2⟩ := ih best
      refine ⟨h1, ?_⟩
      intro r hr
      rcases List.mem_cons.mp hr with rfl | hr
      · exact le_trans h1 (le_of_not_lt h)
      · exact h2 r hr

theorem nearest_min (store : List Reading) (t : Int) (n : Reading)
    (h : nearest store t = some n) :
    ∀ r ∈ store, tdist n.idx t ≤ tdist r.idx t := by
  match store with
  | [] => cases h
  | x :: xs =>
    simp only [nearest] at h
    injection h with h
    subst h
    intro r hr
    rcases List.mem_cons.mp hr with rfl | hr
    · exact (nearestAux_min t xs r).1
    · exact (nearestAux_min t xs x).2 r hr

theorem foldl_max_seed_le (s : ℚ) (l : List Reading) :
    s ≤ l.foldl (fun m x => max m x.temp_out) s := by
  induction l generalizing s with
  | nil => exact le_refl s
  | cons x xs ih => exact le_trans (le_max_left s x.temp_out) (ih _)

theorem foldl_max_mem_le (l : List Reading) (r : Reading) (h : r ∈ l) :
    ∀ s : ℚ, r.temp_out ≤ l.foldl (fun m x => max m x.temp_out) s := by
  induction l with
  | nil => cases h
  | cons x xs ih =>
    intro s
    rcases List.mem_cons.mp h with rfl | hmem
    · exact le_trans (le_max_right s r.temp_out) (foldl_max_seed_le _ xs)
    · exact ih hmem _

theorem foldl_max_attained (l : List Reading) :
    ∀ s : ℚ, l.foldl (fun m x => max m x.temp_out) s = s ∨
      ∃ r ∈ l, l.foldl (fun m x => max m x.temp_out) s = r.temp_out := by
  induction l with
  | nil => exact fun s => Or.inl rfl
  | cons x xs ih =>
    intro s
    simp only [List.foldl_cons]
    rcases ih (max s x.temp_out) with h | ⟨r, hr, h⟩
    · rcases max_choice s x.temp_out with hm | hm
      · exact Or.inl (by rw [h, hm])
      · exact Or.inr ⟨x, List.mem_cons_self x xs, by rw [h, hm]⟩
    · exact Or.inr ⟨r, List.mem_cons_of_mem x hr, h⟩

theorem sorted_idx_inj {store : List Reading}
    (hs : store.Pairwise (fun a b => a.idx < b.idx)) :
    ∀ a ∈ store, ∀ b ∈ store, a.idx = b.idx → a = b := by
  induction store with
  | nil => intro a ha; cases ha
  | cons x xs ih =>
    obtain ⟨hx, hxs⟩ := List.pairwise_cons.mp hs
    intro a ha b hb heq
    rcases List.mem_cons.mp ha with h1 | h1
    · rcases List.mem_cons.mp hb with h2 | h2
      · rw [h1, h2]
      · exfalso
        have hlt := hx b h2
        rw [← h1] at hlt
        exact (ne_of_lt hlt) heq
    · rcases List.mem_cons.mp hb with h2 | h2
      · exfalso
        have hlt := hx a h1
        rw [← h2] at hlt
        exact (ne_of_lt hlt) heq.symm
      · exact ih hxs a h1 b h2 heq

theorem dedupeFrom_sublist (l : List Reading) :
    ∀ prev : Int, (dedupeFrom prev l).Sublist l := by
  induction l with
  | nil => intro prev; simp [dedupeFrom]
  | cons r rs ih =>
    intro prev
    simp only [dedupeFrom]
    split
    · exact (ih prev).cons r
    · exact (ih r.idx).cons₂ r

theorem dedupeFrom_spaced (l : List Reading)
    (hs : l.Pairwise (fun a b => a.idx ≤ b.idx)) :
    ∀ prev : Int,
      (dedupeFrom prev l).Pairwise
        (fun a b => a.idx + REPORTS_MAXIMUM_FREQUENCY ≤ b.idx) ∧
      ∀ r ∈ dedupeFrom prev l, prev + REPORTS_MAXIMUM_FREQUENCY ≤ r.idx := by
  induction l with
  | nil =>
    intro prev
    refine ⟨List.Pairwise.nil, ?_⟩
    intro r hr
    cases hr
  | cons x xs ih =>
    obtain ⟨hx, hxs⟩ := List.pairwise_cons.mp hs
    intro prev
    simp only [dedupeFrom]
    split
    case isTrue h => exact ih hxs prev
    case isFalse h =>
      obtain ⟨hp, hb⟩ := ih hxs x.idx
      refine ⟨List.pairwise_cons.mpr ⟨hb, hp⟩, ?_⟩
      intro r hr
      rcases List.mem_cons.mp hr with rfl | hr
      · simp only [REPORTS_MAXIMUM_FREQUENCY] at *
        omega
      · have h1 := hb r hr
        simp only [REPORTS_MAXIMUM_FREQUENCY] at *
        omega

theorem throttleAux_spaced (interval : Int) (hI : 0 ≤ interval) (l : List Int)
    (hs : l.Pairwise (fun a b => a ≤ b)) :
    ∀ last : Int,
      (throttleAux interval last l).Pairwise (fun a b => a + interval ≤ b) ∧
      ∀ t ∈ throttleAux interval last l, last + interval ≤ t := by
  induction l with
  | nil =>
    intro last
    refine ⟨List.Pairwise.nil, ?_⟩
    intro t ht
    cases ht
  | cons x xs ih =>
    obtain ⟨hx, hxs⟩ := List.pairwise_cons.mp hs
    intro last
    simp only [throttleAux]
    split
    case isTrue h =>
      obtain ⟨hp, hb⟩ := ih hxs x
      refine ⟨List.pairwise_cons.mpr ⟨hb, hp⟩, ?_⟩
      intro t ht
      rcases List.mem_cons.mp ht with rfl | ht
      · omega
      · have := hb t ht
        omega
    case isFalse h => exact ih hxs last

/-! Claim theorems. -/

/-- C1 (counterexample): with readings at 0 s (temp 100) and 90000 s
(temp 10), the nearest lookup for 90000 s − 24 h = 3600 s lands on the
reading at 0 s, outside the claimed window [3600 s, 90000 s], so max_temp24
returns 100 while the true maximum of the window (seeded with the value at
the report) is 10: the returned value does not equal the true maximum over
the readings in the window. -/
theorem max_temp24_not_window_max :
    max_temp24 [⟨ 0, 100, 0 ⟩, ⟨ 90000, 10, 0 ⟩] ⟨ 90000, 10, 0 ⟩ = some 100 ∧
    windowTrueMax [⟨ 0, 100, 0 ⟩, ⟨ 90000, 10, 0 ⟩] ⟨ 90000, 10, 0 ⟩ = 10 ∧
    max_temp24 [⟨ 0, 100, 0 ⟩, ⟨ 90000, 10, 0 ⟩] ⟨ 90000, 10, 0 ⟩ ≠
      some (windowTrueMax [⟨ 0, 100, 0 ⟩, ⟨ 90000, 10, 0 ⟩]
        ⟨ 90000, 10, 0 ⟩) := by
  refine ⟨ by decide, by decide, by decide ⟩

/-- C1 (amended): for a strictly ascending store containing the report, the
value max_temp24 returns dominates the field value of every stored reading in
the window [idx − 24 h, idx], and it is attained: it equals either the
temperature at the report (the seed) or the temperature of some stored
reading. It can exceed the true window maximum when the nearest lookup for
idx − 24 h lands before the window, so it equals the maximum over the scanned
range [nearest(idx − 24 h), idx], not over the window itself. -/
theorem max_temp24_window_bound (store : List Reading) (report : Reading)
    (m : ℚ) (hs : store.Pairwise (fun a b => a.idx < b.idx))
    (hrep : report ∈ store) (h : max_temp24 store report = some m) :
    (∀ r ∈ store, report.idx - DAY ≤ r.idx → r.idx ≤ report.idx →
      r.temp_out ≤ m) ∧
    (m = report.temp_out ∨ ∃ r ∈ store, r.temp_out = m) := by
  unfold max_temp24 at h
  cases hn : nearest store (report.idx - DAY) with
  | none => rw [hn] at h; cases h
  | some start =>
    rw [hn] at h
    injection h with h
    subst h
    constructor
    · intro r hr h1 h2
      rcases lt_or_eq_of_le h2 with hlt | heq
      · have hmin := nearest_min store _ start hn r hr
        have hsr : start.idx ≤ r.idx := by
          by_contra hc
          push_neg at hc
          unfold tdist at hmin
          omega
        have hmem : r ∈ srange store start.idx report.idx := by
          unfold srange
          rw [List.mem_filter]
          refine ⟨hr, ?_⟩
          simp only [Bool.and_eq_true, decide_eq_true_eq]
          exact ⟨hsr, hlt⟩
        exact foldl_max_mem_le _ r hmem _
      · have hre : r = report := sorted_idx_inj hs r hr report hrep heq
        subst hre
        exact foldl_max_seed_le _ _
    · rcases foldl_max_attained (srange store start.idx report.idx)
        report.temp_out with h | ⟨r, hr, h⟩
      · exact Or.inl h
      · refine Or.inr ⟨r, ?_, h.symm⟩
        unfold srange at hr
        exact List.mem_of_mem_filter hr

/-- C1 (witness): the amended theorem applied to a two-reading store: the
reading at 0 s lies in the window of the report at 3600 s, so its
temperature is bounded by the returned maximum 7. -/
theorem max_temp24_window_bound_witness :
    ((⟨ 0, 5, 0 ⟩ : Reading)).temp_out ≤ 7 := by
  have h := max_temp24_window_bound [⟨ 0, 5, 0 ⟩, ⟨ 3600, 7, 0 ⟩]
    ⟨ 3600, 7, 0 ⟩ 7 (by decide) (by decide) (by decide)
  exact h.1 ⟨ 0, 5, 0 ⟩ (by decide) (by decide) (by decide)

/-- C2 (code bug evidence): rain_day holds no state between calls, so the
cache check the source carries is broken: a reading timestamped inside the
current local day (neither while loop runs) makes the call raise
UnboundLocalError, and two calls for readings inside the same past local day
both perform the nearest-timestamp fetch of the midnight reference (two
fetches within one local calendar day instead of exactly one). -/
theorem rain_day_cache_broken :
    rain_day [⟨ 0, 0, 10 ⟩] 86400 ⟨ 90000, 12, 5 ⟩ = .error .unboundLocal ∧
    rain_day_fetches 86400 ⟨ 3600, 11, 1 ⟩ +
      rain_day_fetches 86400 ⟨ 7200, 11, 2 ⟩ = 2 ∧
    rain_day [⟨ 0, 0, 10 ⟩] 86400 ⟨ 3600, 11, 12 ⟩ = .ok 2 ∧
    rain_day [⟨ 0, 0, 10 ⟩] 86400 ⟨ 7200, 11, 13 ⟩ = .ok 3 := by
  refine ⟨ ?_, ?_, ?_, ?_ ⟩ <;>
    simp [rain_day, rain_day_fetches, midnightDown, midnightUp, DAY,
      nearest, nearestAux]
  · norm_num
  · norm_num

/-- C3: the rainfall accumulation of rain_day and the hourly rainfall rate of
GenerateBulk are never negative, and when the rain counter at the report is
smaller than at the reference reading (a counter reset) the result is clamped
to exactly 0. -/
theorem rain_clamped_nonneg (store : List Reading) (nowMidnight : Int)
    (report ref refh : Reading) (q qr : ℚ)
    (hq : rain_day store nowMidnight report = .ok q)
    (hr : rainfall_rate store report = some qr) :
    0 ≤ q ∧ 0 ≤ qr ∧
    (nearest store
        (midnightUp report.idx (midnightDown report.idx nowMidnight)) =
          some ref → report.rain < ref.rain → q = 0) ∧
    (nearest store (report.idx - HOUR) = some refh →
      report.rain < refh.rain → qr = 0) := by
  simp only [rain_day] at hq
  simp only [rainfall_rate] at hr
  split at hq
  case isFalse => cases hq
  case isTrue hcond =>
    cases hn : nearest store
        (midnightUp report.idx (midnightDown report.idx nowMidnight)) with
    | none => rw [hn] at hq; cases hq
    | some ref' =>
      rw [hn] at hq
      injection hq with hq
      subst hq
      cases hnh : nearest store (report.idx - HOUR) with
      | none => rw [hnh] at hr; cases hr
      | some refh' =>
        rw [hnh] at hr
        simp only [Option.map_some'] at hr
        injection hr with hr
        subst hr
        refine ⟨le_max_left _ _, le_max_left _ _, ?_, ?_⟩
        · intro hne hlt
          injection hne with hne
          subst hne
          exact max_eq_left (sub_nonpos.mpr (le_of_lt hlt))
        · intro hne hlt
          injection hne with hne
          subst hne
          exact max_eq_left (sub_nonpos.mpr (le_of_lt hlt))

/-- C3 (witness): a store whose midnight reference has rain counter 10 and a
report with counter 3 (a reset): both computations clamp to 0. -/
theorem rain_clamped_nonneg_witness :
    (0 : ℚ) ≤ 0 ∧ (0 : ℚ) ≤ 0 ∧ (0 : ℚ) = 0 ∧ (0 : ℚ) = 0 := by
  have hq : rain_day [⟨ 0, 0, 10 ⟩] 86400 ⟨ 3600, 0, 3 ⟩ = .ok 0 := by
    simp [rain_day, midnightDown, midnightUp, DAY, nearest, nearestAux]
    norm_num
  have hr : rainfall_rate [⟨ 0, 0, 10 ⟩] ⟨ 3600, 0, 3 ⟩ = some 0 := by
    simp [rainfall_rate, HOUR, nearest, nearestAux]
    norm_num
  have hn1 : nearest [⟨ 0, 0, 10 ⟩]
      (midnightUp 3600 (midnightDown 3600 86400)) = some ⟨ 0, 0, 10 ⟩ := by
    simp [midnightDown, midnightUp, DAY, nearest, nearestAux]
  have hn2 : nearest [⟨ 0, 0, 10 ⟩] ((3600 : Int) - HOUR) =
      some ⟨ 0, 0, 10 ⟩ := by
    simp [HOUR, nearest, nearestAux]
  have h := rain_clamped_nonneg [⟨ 0, 0, 10 ⟩] 86400 ⟨ 3600, 0, 3 ⟩
    ⟨ 0, 0, 10 ⟩ ⟨ 0, 0, 10 ⟩ 0 0 hq hr
  exact ⟨ h.1, h.2.1, h.2.2.1 hn1 (by norm_num), h.2.2.2 hn2 (by norm_num) ⟩

/-- C4 (counterexample): a first reading whose timestamp is less than 3
minutes after datetime.min (the initial prev_idx) is skipped by the gap
check, so the first reading in range is not always emitted. -/
theorem generateBulk_first_reading_skipped :
    generateBulkReports [⟨ 60, 20, 0 ⟩] = [] := by decide

/-- C4 (amended): for a time-ordered store, the emitted readings are pairwise
at least 3 minutes apart, they form a sublist of the store (skipped readings
are discarded whole, never merged), and the first reading in range is emitted
provided its timestamp is at least 3 minutes after datetime.min (the
initialisation of prev_idx makes readings within 3 minutes of datetime.min
be skipped). -/
theorem generateBulk_dedupe (store : List Reading)
    (hs : store.Pairwise (fun a b => a.idx ≤ b.idx)) :
    (generateBulkReports store).Pairwise
      (fun a b => a.idx + REPORTS_MAXIMUM_FREQUENCY ≤ b.idx) ∧
    (generateBulkReports store).Sublist store ∧
    (∀ r rs, store = r :: rs →
      datetimeMin + REPORTS_MAXIMUM_FREQUENCY ≤ r.idx →
      ∃ l, generateBulkReports store = r :: l) := by
  refine ⟨(dedupeFrom_spaced store hs datetimeMin).1,
    dedupeFrom_sublist store datetimeMin, ?_⟩
  intro r rs hst hr
  subst hst
  simp only [generateBulkReports, dedupeFrom]
  rw [if_neg]
  · exact ⟨_, rfl⟩
  · simp only [REPORTS_MAXIMUM_FREQUENCY, datetimeMin] at hr ⊢
    omega

/-- C4 (witness): the amended theorem applied to a three-reading store; the
middle reading (gap 100 s) is skipped, and the emitted readings form a
sublist of the store. -/
theorem generateBulk_dedupe_witness :
    (generateBulkReports
      [⟨ 200, 1, 0 ⟩, ⟨ 300, 2, 0 ⟩, ⟨ 400, 3, 0 ⟩]).Sublist
      [⟨ 200, 1, 0 ⟩, ⟨ 300, 2, 0 ⟩, ⟨ 400, 3, 0 ⟩] := by
  have h := generateBulk_dedupe [⟨ 200, 1, 0 ⟩, ⟨ 300, 2, 0 ⟩, ⟨ 400, 3, 0 ⟩]
    (by decide)
  exact h.2.1

/-- C5 (counterexample): the altitude line of the CWOP template has the empty
string as its no-value alternative, not a six-character sentinel, so the
applicable altitude field can resolve to a string of width 0 where the %06d
format would produce width 6. -/
theorem cwop_altitude_fallback_width :
    (⟨ "altitude", 6, "" ⟩ : FieldSpec) ∈ cwopFieldSpecs ∧
    renderField ⟨ "altitude", 6, "" ⟩ none = "" ∧
    (renderField ⟨ "altitude", 6, "" ⟩ none).length ≠ 6 := by decide

/-- C5 (amended): template resolution is total and never omits an applicable
key, and for every CWOP field except altitude the rendered string and the
fallback sentinel both have exactly the declared format width (for rendered
values that fit the width, which the max_dec_length conversions of the
template enforce); the altitude fallback alone is the empty string. -/
theorem cwop_template_fixed_width (spec : FieldSpec)
    (hmem : spec ∈ cwopFieldSpecs) (hne : spec.name ≠ "altitude")
    (v : Option Nat) (hfit : ∀ n, v = some n → n < 10 ^ spec.width) :
    (renderField spec v).length = spec.width ∧
    ∀ lookup : String → Option Nat,
      (spec.name, renderField spec (lookup spec.name)) ∈
        resolveTemplate cwopFieldSpecs lookup := by
  constructor
  · cases v with
    | none =>
      fin_cases hmem <;> first | decide | (exact absurd rfl hne)
    | some n =>
      have hn := hfit n rfl
      have hlen : (decDigits n).length ≤ spec.width := by
        unfold decDigits
        rw [List.length_reverse, List.length_map]
        rcases Nat.eq_zero_or_pos n with rfl | hpos
        · simp
        · rw [Nat.digits_len 10 n (by norm_num) hpos.ne']
          have hlog := Nat.log_lt_of_lt_pow hpos.ne' hn
          omega
      simp only [renderField, String.length, List.length_append,
        List.length_replicate]
      omega
  · intro lookup
    unfold resolveTemplate
    exact List.mem_map.mpr ⟨spec, hmem, rfl⟩

/-- C5 (witness): the amended theorem applied to the humidity field at value
5: rendered as the two-character string 05, and its key is present in the
resolved mapping. -/
theorem cwop_template_fixed_width_witness :
    (renderField ⟨ "hum_out", 2, ".." ⟩ (some 5)).length = 2 ∧
    ("hum_out", renderField ⟨ "hum_out", 2, ".." ⟩ (some 5)) ∈
      resolveTemplate cwopFieldSpecs (fun _ => some 5) := by
  have h := cwop_template_fixed_width ⟨ "hum_out", 2, ".." ⟩ (by decide)
    (by decide) (some 5)
    (by intro n hn; injection hn with hn; subst hn; norm_num)
  exact ⟨ h.1, h.2 (fun _ => some 5) ⟩

/-- C6 (counterexample): for a 3080 station whose rain_hour field is the
integer-zero string, the packet replaces the r section with the illuminance
section, so the single claimed wire format does not hold for every prepared
data mapping. -/
theorem cwop_packet_3080_illuminance :
    cwop_packet "3080" d0 ≠ some (claimPacket d0) ∧
    cwop_packet "3080" d0 = some
      "EW9999>APRS,TCPIP*:@012034z5130.06N/00008.52E_045/010g015t072L123p005P012h55b10132.pywws-18.4.1" := by
  exact ⟨ by decide, by decide ⟩

/-- C6 (amended): the login line is exactly
user {designator} pass {passcode} vers pywws {version}, and the status line
is exactly the claimed format — with the altitude suffix present exactly when
altitude is in the prepared data — whenever the station type is not 3080 or
the rain_hour value is a non-zero integer; for a 3080 station with
integer-zero rain_hour the r section is replaced by the illuminance
section. -/
theorem cwop_wire_format (wsType : String) (d : PreparedData)
    (h : wsType ≠ "3080" ∨ ∃ n, pyInt? d.rain_hour = some n ∧ n ≠ 0) :
    cwop_login d = "user " ++ d.designator ++ " pass " ++ d.passcode ++
      " vers pywws " ++ d.version ++ "\n" ∧
    cwop_packet wsType d = some (claimPacket d) := by
  refine ⟨rfl, ?_⟩
  unfold cwop_packet claimPacket
  by_cases h3 : wsType = "3080"
  · rcases h with h | ⟨n, hn, hne⟩
    · exact absurd h3 h
    · rw [if_pos h3, hn]
      simp only []
      rw [if_neg hne]
      simp [String.append_assoc]
  · rw [if_neg h3]
    simp [String.append_assoc]

/-- C6 (witness): the amended theorem applied to a non-3080 station and the
sample prepared data. -/
theorem cwop_wire_format_witness :
    cwop_login d0 = "user " ++ d0.designator ++ " pass " ++ d0.passcode ++
      " vers pywws " ++ d0.version ++ "\n" ∧
    cwop_packet "1080" d0 = some (claimPacket d0) :=
  cwop_wire_format "1080" d0 (Or.inl (by decide))

/-- C7 (counterexample): upload_data can itself raise: the packet is built
before the exception guard, and int() applied to a non-numeric rain_hour (the
missing-value sentinel) for a 3080 station raises an uncaught ValueError
instead of producing an (ok, message) pair. -/
theorem cwop_upload_raises :
    cwop_upload_data "3080" .ok dSentinel = none := by decide

/-- C7 (amended): once packet construction succeeds, CWOP upload_data never
raises: an exception during transmission yields (False, message) and a
complete transmission yields (True, OK); OpenWeatherMap upload_data never
raises, returns (True, OK) exactly when the HTTP status is 204, returns
(False, http status ...) for every other status, and (False, message) when
the request raises. -/
theorem upload_send_contract (wsType : String) (d : PreparedData)
    (p : String) (hp : cwop_packet wsType d = some p) :
    (∀ msg, cwop_upload_data wsType (.exn msg) d = some (false, msg)) ∧
    cwop_upload_data wsType .ok d = some (true, "OK") ∧
    (∀ ex, owm_upload_data (.error ex) = (false, ex)) ∧
    (∀ status text,
      owm_upload_data (.ok (status, text)) = (true, "OK") ↔ status = 204) ∧
    (∀ status text, status ≠ 204 →
      owm_upload_data (.ok (status, text)) =
        (false, "http status: " ++ toString status ++ " " ++ text)) := by
  refine ⟨?_, ?_, ?_, ?_, ?_⟩
  · intro msg
    unfold cwop_upload_data
    rw [hp]
  · unfold cwop_upload_data
    rw [hp]
  · intro ex
    rfl
  · intro status text
    constructor
    · intro h
      by_contra hc
      simp only [owm_upload_data] at h
      rw [if_pos hc] at h
      cases h
    · intro h
      subst h
      rfl
  · intro status text h
    simp only [owm_upload_data]
    rw [if_pos h]

/-- C7 (witness): the amended theorem applied to the sample prepared data on
a non-3080 station, a failing and a successful transmission, and HTTP
statuses 204 and 400. -/
theorem upload_send_contract_witness :
    cwop_upload_data "1080" (.exn "timeout") d0 = some (false, "timeout") ∧
    cwop_upload_data "1080" .ok d0 = some (true, "OK") ∧
    owm_upload_data (.ok (204, "")) = (true, "OK") ∧
    owm_upload_data (.ok (400, "bad")) =
      (false, "http status: " ++ toString (400 : Int) ++ " " ++ "bad") := by
  have h := upload_send_contract "1080" d0 (claimPacket d0) (by decide)
  exact ⟨ h.1 "timeout", h.2.1, (h.2.2.2.1 204 "").mpr rfl,
    h.2.2.2.2 400 "bad" (by decide) ⟩

/-- C8: register is idempotent: a truthy configured station id produces
exactly one PUT to the URL of the existing station and leaves the stored id
untouched whatever the response (no new identity, no id change); with an
absent station id it produces exactly one POST to the stations URL and
persists the returned id on success (and persists nothing when the request
raises). -/
theorem owm_register_idempotent (sid : String) (hsid : sid ≠ "")
    (resp : Except String String) (newId ex : String) :
    owm_register (some sid) resp =
      ([⟨ .put, owm_stations_url ++ "/" ++ sid ⟩], none) ∧
    owm_register none (.ok newId) =
      ([⟨ .post, owm_stations_url ⟩], some newId) ∧
    owm_register none (.error ex) = ([⟨ .post, owm_stations_url ⟩], none) := by
  refine ⟨?_, rfl, rfl⟩
  unfold owm_register
  have ht : pyTruthyStr (some sid) = true := by
    simp [pyTruthyStr, hsid]
  rw [if_pos ht]
  rfl

/-- C8 (witness): the theorem applied to the example station id of the
module documentation. -/
theorem owm_register_idempotent_witness :
    owm_register (some "583436dd9643a9000196b8d6") (.error "e") =
      ([⟨ .put, owm_stations_url ++ "/" ++ "583436dd9643a9000196b8d6" ⟩],
        none) ∧
    owm_register none (.ok "newid") =
      ([⟨ .post, owm_stations_url ⟩], some "newid") ∧
    owm_register none (.error "e") =
      ([⟨ .post, owm_stations_url ⟩], none) :=
  owm_register_idempotent "583436dd9643a9000196b8d6" (by decide)
    (.error "e") "newid" "e"

/-- C9: the configured CWOP interval is 290 seconds; two live events 60
seconds apart produce exactly one attempt; and over any ascending sequence of
event times, any two attempt start times are at least 290 seconds apart
(consecutive and hence all pairs), regardless of attempt outcome. -/
theorem cwop_min_interval (events : List Int)
    (hs : events.Pairwise (fun a b => a ≤ b)) :
    cwop_interval = 290 ∧
    attempts cwop_interval [0, 60] = [0] ∧
    (attempts cwop_interval events).Pairwise
      (fun a b => a + cwop_interval ≤ b) := by
  refine ⟨rfl, by decide, ?_⟩
  cases events with
  | nil => exact List.Pairwise.nil
  | cons t ts =>
    obtain ⟨ht, hts⟩ := List.pairwise_cons.mp hs
    obtain ⟨hp, hb⟩ := throttleAux_spaced cwop_interval (by decide) ts hts t
    exact List.pairwise_cons.mpr ⟨hb, hp⟩

/-- C9 (witness): the theorem applied to two events 60 seconds apart. -/
theorem cwop_min_interval_witness :
    cwop_interval = 290 ∧ attempts cwop_interval [0, 60] = [0] := by
  have h := cwop_min_interval [0, 60] (by decide)
  exact ⟨ h.1, h.2.1 ⟩

/-- C10: safe_format maps every falsy value — None, the numeric zero, the
empty string — to None, so a genuine zero reading is written to the CSV as
the same empty field as a missing value, and only truthy values are rendered
with the format. -/
theorem safe_format_falsy (render : PyVal → String) (v : PyVal)
    (hv : pyTruthy v = true) :
    safe_format render (.num 0) = none ∧
    safe_format render .none = none ∧
    safe_format render (.str "") = none ∧
    safe_format render (.num 0) = safe_format render .none ∧
    safe_format render v = some (render v) := by
  refine ⟨?_, rfl, ?_, ?_, ?_⟩
  · simp [safe_format, pyTruthy]
  · simp [safe_format, pyTruthy]
  · simp [safe_format, pyTruthy]
  · simp [safe_format, hv]

/-- C10 (witness): the theorem applied to a render function and the truthy
value 1. -/
theorem safe_format_falsy_witness :
    safe_format (fun _ => "0.00") (.num 0) = none ∧
    safe_format (fun _ => "0.00") .none = none ∧
    safe_format (fun _ => "0.00") (.str "") = none ∧
    safe_format (fun _ => "0.00") (.num 0) =
      safe_format (fun _ => "0.00") .none ∧
    safe_format (fun _ => "0.00") (.num 1) = some "0.00" :=
  safe_format_falsy (fun _ => "0.00") (.num 1) (by decide)

end Pywws
